import Mathlib

/-!
# Shallow embedding of the crate-digger-mcp track-resolution pipeline

This file embeds the core of the repository's track-resolution pipeline:

* `src/types/index.ts` — the data model (`CleanedTrack`, `TrackSearchResult`,
  `ProcessingSummary`);
* `src/utils/rateLimiter.ts` — the per-provider rate limiter and a small-step
  model of its behaviour under the concurrent fan-out of one chunk;
* `src/services/resolver/notsliderService.ts` — the primary provider with its
  retry/backoff loop;
* `src/services/resolver/youtubeDlService.ts` and the `SoundCloudService`
  segment of `src/services/youtube/youtubeService.ts` — the stub providers;
* `src/handlers/analyzeYoutubeMix.ts` — the waterfall coordinator
  (`searchSingleTrack`), the chunked batch scheduler
  (`searchTracksWithWaterfall`), the summary aggregation (`calculateSummary`)
  and the skip-LLM fallback track conversion;
* the LLM response validation (`LLMService.validateAndTransform`).

External effects (network fetches, HTML parsing, redirect probes, wall-clock
reads) are represented by explicit oracle parameters, so every theorem
quantifies over all possible behaviours of the outside world.  JavaScript
numbers are modelled as `ℚ` (all arithmetic the code performs on them —
clamping to `[0,1]` and comparison with `0.5` — is exact in binary floating
point, so `ℚ` is a faithful carrier).  Durations in milliseconds are `Nat`.
-/

/-- The closed set of provider identifiers
(`source?: 'notslider' | 'soundcloud' | 'youtube'` in `src/types/index.ts`). -/
inductive Source where
  | notslider
  | soundcloud
  | youtube
deriving DecidableEq, Repr

/-- The closed set of quality tiers
(`'320kbps' | '256kbps' | '192kbps' | '128kbps' | 'unknown'`). -/
inductive Quality where
  | q320
  | q256
  | q192
  | q128
  | unknown
deriving DecidableEq, Repr

/-- Audio format tags (`'mp3' | 'm4a' | 'opus'`). -/
inductive Format where
  | mp3
  | m4a
  | opus
deriving DecidableEq, Repr

/-- `RawTrack` from `src/types/index.ts`: one raw line extracted from the
YouTube chapters or description. -/
structure RawTrack where
  index : ℚ
  timestamp : Option String
  rawText : String
deriving DecidableEq, Repr

/-- `CleanedTrack` from `src/types/index.ts`: the normalized track record the
resolution pipeline consumes. -/
structure CleanedTrack where
  index : ℚ
  original : String
  artist : String
  title : String
  remixInfo : Option String
  certainty : ℚ
  isValid : Bool
deriving DecidableEq, Repr

/-- `TrackSearchResult` from `src/types/index.ts`.  Optional TypeScript fields
are `Option`s; a field that a code path does not mention in its object literal
is `none` there. -/
structure TrackSearchResult where
  track : CleanedTrack
  found : Bool
  source : Option Source
  downloadUrl : Option String
  quality : Option Quality
  format : Option Format
  duration : Option ℚ
  fileSize : Option ℚ
  error : Option String
deriving DecidableEq, Repr

/-- The `{ track, found: false, error }` object literal shape used by every
not-found return path in the resolver services and the coordinator. -/
def TrackSearchResult.notFound (t : CleanedTrack) (e : String) : TrackSearchResult :=
  { track := t, found := false, source := none, downloadUrl := none,
    quality := none, format := none, duration := none, fileSize := none,
    error := some e }

/-! ## RateLimiter (`src/utils/rateLimiter.ts`, provided as an unnamed source
file of the repository) -/

/-- One entry of the `limits` table of `RateLimiter`. -/
structure RateConfig where
  rpm : Nat
  delayMs : Nat
deriving DecidableEq, Repr

/-- The `limits` table of `RateLimiter`: `notslider`, `soundcloud` and
`openai` are the only configured keys; any other identifier has no
configuration and `throttle` is a no-op for it. -/
def rateLimits : String → Option RateConfig
  | "notslider" => some { rpm := 60, delayMs := 1000 }
  | "soundcloud" => some { rpm := 100, delayMs := 600 }
  | "openai" => some { rpm := 60, delayMs := 1000 }
  | _ => none

/-- Small-step model of the synchronous prefix of `RateLimiter.throttle` for a
batch of concurrent callers that all start at wall-clock time `t0` (the
`Promise.all` fan-out of one chunk runs each caller's synchronous prefix in
sequence before any timer can fire).  Each caller reads the provider's
`lastRequest` entry (`last.getD 0` models `this.lastRequest.get(service) || 0`)
and either

* dispatches immediately (elapsed time at least the configured delay): it
  writes `t0` into `lastRequest` and its dispatch time is `t0`
  (`Sum.inr t0`), or
* computes its wait and suspends in
  `await new Promise(r => setTimeout(r, waitTime))` without writing
  `lastRequest`: its wake-up time is `t0 + (delayMs - elapsed)`
  (`Sum.inl wake`).

The code performs no re-check after the sleep: a suspended caller, once woken,
unconditionally records the dispatch and proceeds, so its dispatch time is
exactly its wake-up time. -/
def throttleSyncPhase (delayMs t0 : Nat) : Nat → Option Nat → List (Sum Nat Nat)
  | 0, _ => []
  | n + 1, last =>
    let l := last.getD 0
    let elapsed := t0 - l
    if elapsed < delayMs then
      Sum.inl (t0 + (delayMs - elapsed)) :: throttleSyncPhase delayMs t0 n last
    else
      Sum.inr t0 :: throttleSyncPhase delayMs t0 n (some t0)

/-- Dispatch times (in caller order) of `n` concurrent `throttle service`
calls issued at time `t0` against a fresh `RateLimiter` (empty `lastRequest`
map).  A caller that suspended dispatches at its wake-up time; an identifier
with no rate-limit configuration makes `throttle` return immediately, so all
callers dispatch at `t0`. -/
def throttleDispatchTimes (service : String) (t0 n : Nat) : List Nat :=
  match rateLimits service with
  | none => List.replicate n t0
  | some cfg =>
      (throttleSyncPhase cfg.delayMs t0 n none).map (fun s =>
        match s with
        | Sum.inl wake => wake
        | Sum.inr d => d)

/-- The interval invariant the spec claims for one provider: successive
dispatch times (listed in dispatch order) are at least `delayMs` apart. -/
def dispatchesSpaced (delayMs : Nat) (times : List Nat) : Prop :=
  List.Pairwise (fun a b => a + delayMs ≤ b) times

instance (delayMs : Nat) (times : List Nat) : Decidable (dispatchesSpaced delayMs times) :=
  List.instDecidablePairwise times

/-! ## NotSliderService (`src/services/resolver/notsliderService.ts`) -/

/-- Oracle for one attempt of `NotSliderService.search`: everything the
outside world contributes to that attempt.

* `fetch`: `.ok ()` when the search request succeeded with an OK status and a
  readable body; `.error msg` when the fetch rejected, the response was
  non-OK (the code throws `HTTP <status>: <statusText>`), or reading the body
  failed — `msg` is the thrown error's message.
* `links`: the `href` attributes, in document order, of the anchors matched by
  the cheerio selector `a[href*=".mp3"], a[href*="download"]` that also pass
  the quality/text filter (`320`, `high quality`, `download`, `.mp3`).
* `mp3Links`: the `href` attributes of the anchors matched by the fallback
  selector `a[href*=".mp3"]`.
* `redirect`: `some finalUrl` when the `followRedirect` HEAD probe succeeds
  (its `response.url`); `none` when it throws (the code then falls back to
  the pre-redirect URL). -/
structure AttemptOracle where
  fetch : Except String Unit
  links : List String
  mp3Links : List String
  redirect : Option String
deriving Repr

/-- `NotSliderService.extractDownloadUrl`: scan the filtered download links
for the first `href` that is truthy and starts with `http` or `/`, resolving
site-relative ones against the base URL; otherwise fall back to the first
`a[href*=".mp3"]` link if it is truthy, prefixing the base URL unless it is
already absolute; otherwise `none`. -/
def extractDownloadUrl (base : String) (links mp3Links : List String) : Option String :=
  match links.find? (fun h => !(h == "") && (h.startsWith "http" || h.startsWith "/")) with
  | some href => some (if href.startsWith "/" then base ++ href else href)
  | none =>
    match mp3Links with
    | [] => none
    | href :: _ =>
      if href == "" then none
      else some (if href.startsWith "http" then href else base ++ href)

/-- `NotSliderService.followRedirect`: the final URL of the HEAD probe on
success, the original URL when the probe throws. -/
def followRedirect (url : String) (redirect : Option String) : String :=
  redirect.getD url

/-- `NotSliderService.retryAttempts` (`private readonly retryAttempts = 2`). -/
def retryAttempts : Nat := 2

/-- The success object literal of `NotSliderService.search`. -/
def notsliderFound (t : CleanedTrack) (finalUrl : String) : TrackSearchResult :=
  { track := t, found := true, source := some Source.notslider,
    downloadUrl := some finalUrl, quality := some Quality.q320,
    format := some Format.mp3, duration := none, fileSize := none,
    error := none }

/-- The retry loop of `NotSliderService.search`, one oracle per attempt
index.  `fuel` is the number of loop iterations still allowed by the loop
condition `attempt < retryAttempts` (the function is called with
`fuel = retryAttempts - attempt`).  Returns the result together with the list
of backoff delays (in ms) the loop awaited, in order.

Mirrored control flow: a thrown error is caught; on the final attempt
(`attempt === retryAttempts - 1`) the catch returns a not-found result
carrying the final error's message, otherwise the loop waits
`1000 * 2 ^ attempt` and retries.  An attempt whose fetch succeeds but whose
page yields no candidate URL falls through to the next iteration with no
wait.  Exhausting the loop returns the fixed `No 320kbps MP3 found`
result. -/
def notsliderGo (base : String) (t : CleanedTrack) (o : Nat → AttemptOracle) :
    Nat → Nat → TrackSearchResult × List Nat
  | _, 0 => (TrackSearchResult.notFound t "No 320kbps MP3 found", [])
  | attempt, fuel + 1 =>
    let a := o attempt
    match a.fetch with
    | Except.error e =>
      if attempt = retryAttempts - 1 then
        (TrackSearchResult.notFound t
          ("Search failed after " ++ toString retryAttempts ++ " attempts: " ++ e), [])
      else
        let r := notsliderGo base t o (attempt + 1) fuel
        (r.1, 1000 * 2 ^ attempt :: r.2)
    | Except.ok _ =>
      match extractDownloadUrl base a.links a.mp3Links with
      | some url => (notsliderFound t (followRedirect url a.redirect), [])
      | none => notsliderGo base t o (attempt + 1) fuel

/-- `NotSliderService.search`: run the retry loop from attempt `0`. -/
def notsliderSearch (base : String) (t : CleanedTrack) (o : Nat → AttemptOracle) :
    TrackSearchResult × List Nat :=
  notsliderGo base t o 0 retryAttempts

/-! ## Stub providers -/

/-- `SoundCloudService.search` (in the second segment of
`src/services/youtube/youtubeService.ts`): a placeholder that always returns
a fixed not-found result. -/
def soundcloudSearch (t : CleanedTrack) : TrackSearchResult :=
  TrackSearchResult.notFound t "SoundCloud integration not yet implemented"

/-- `YouTubeDlService.search` (`src/services/resolver/youtubeDlService.ts`):
a placeholder that always returns a fixed not-found result. -/
def youtubeDlSearch (t : CleanedTrack) : TrackSearchResult :=
  TrackSearchResult.notFound t "yt-dlp service not yet implemented"

/-! ## Waterfall coordinator (`AnalyzeYoutubeMixHandler.searchSingleTrack`) -/

/-- Observable events of one `searchSingleTrack` run: a `RateLimiter.throttle`
call with its service-identifier argument, or the invocation of one
provider's `search`. -/
inductive Ev where
  | throttle (service : String)
  | call (p : Source)
deriving DecidableEq, Repr

/-- JavaScript string interpolation of a possibly-`undefined` field:
`${r.error}` prints the string, or `undefined` when the field is absent. -/
def errText (r : TrackSearchResult) : String :=
  r.error.getD "undefined"

/-- The catch-all result of `searchSingleTrack` (`Search failed: <message>`),
produced when a provider call throws. -/
def searchFailedResult (t : CleanedTrack) (msg : String) : TrackSearchResult :=
  TrackSearchResult.notFound t ("Search failed: " ++ msg)

/-- The all-sources-failed result of `searchSingleTrack`, concatenating the
three providers' error fields. -/
def allSourcesFailed (t : CleanedTrack) (n s y : TrackSearchResult) : TrackSearchResult :=
  TrackSearchResult.notFound t
    ("Not found on any source. NotSlider: " ++ errText n ++
     ", SoundCloud: " ++ errText s ++ ", YouTube-dl: " ++ errText y)

/-- `AnalyzeYoutubeMixHandler.searchSingleTrack`, with each provider call's
outcome supplied as an oracle (`.ok r` — the call resolved to `r`; `.error m`
— the call rejected and the surrounding `catch` handles message `m`).
Returns the event trace together with the result.

Mirrored control flow: throttle `notslider`, call NotSlider, return its
result if found; throttle `soundcloud`, call SoundCloud, return its result if
found; call YouTube-dl **with no preceding throttle call**, return its result
if found; otherwise synthesize the concatenated not-found result.  A rejected
provider call is caught and converted to the `Search failed:` result. -/
def searchSingleTrack (t : CleanedTrack) (r1 r2 r3 : Except String TrackSearchResult) :
    List Ev × TrackSearchResult :=
  match r1 with
  | Except.error e =>
    ([Ev.throttle "notslider", Ev.call Source.notslider], searchFailedResult t e)
  | Except.ok n =>
    if n.found then
      ([Ev.throttle "notslider", Ev.call Source.notslider], n)
    else
      match r2 with
      | Except.error e =>
        ([Ev.throttle "notslider", Ev.call Source.notslider,
          Ev.throttle "soundcloud", Ev.call Source.soundcloud],
         searchFailedResult t e)
      | Except.ok s =>
        if s.found then
          ([Ev.throttle "notslider", Ev.call Source.notslider,
            Ev.throttle "soundcloud", Ev.call Source.soundcloud], s)
        else
          match r3 with
          | Except.error e =>
            ([Ev.throttle "notslider", Ev.call Source.notslider,
              Ev.throttle "soundcloud", Ev.call Source.soundcloud,
              Ev.call Source.youtube],
             searchFailedResult t e)
          | Except.ok y =>
            if y.found then
              ([Ev.throttle "notslider", Ev.call Source.notslider,
                Ev.throttle "soundcloud", Ev.call Source.soundcloud,
                Ev.call Source.youtube], y)
            else
              ([Ev.throttle "notslider", Ev.call Source.notslider,
                Ev.throttle "soundcloud", Ev.call Source.soundcloud,
                Ev.call Source.youtube],
               allSourcesFailed t n s y)

/-- One track's resolution through the actual provider set: NotSlider (with
its per-attempt network oracle), then the SoundCloud stub, then the
YouTube-dl stub.  None of the real providers rejects, so every oracle slot of
`searchSingleTrack` is an `.ok`. -/
def pipelineResolve (base : String) (o : Nat → AttemptOracle) (t : CleanedTrack) :
    TrackSearchResult :=
  (searchSingleTrack t (Except.ok (notsliderSearch base t o).1)
    (Except.ok (soundcloudSearch t)) (Except.ok (youtubeDlSearch t))).2

/-! ## Batch scheduler (`AnalyzeYoutubeMixHandler.searchTracksWithWaterfall`) -/

/-- The chunk loop
`for (let i = 0; i < tracks.length; i += maxConcurrent) { ... }`, stepped
explicitly.  Each iteration takes the chunk `tracks.slice(i, i + m)`
(`(tracks.drop i).take m`), resolves all its members (`Promise.all` assembles
the chunk's results positionally, by index, so the chunk contributes
`batch.map resolve` regardless of completion order), appends them to the
accumulator, and advances `i` by `m`.  `fuel` bounds the number of loop
iterations; `none` means the loop condition was still true after `fuel`
iterations — for `m = 0` this holds for every fuel, i.e. the loop never
terminates. -/
def waterfallLoop (m : Nat) (resolve : CleanedTrack → TrackSearchResult)
    (tracks : List CleanedTrack) :
    Nat → Nat → List TrackSearchResult → Option (List TrackSearchResult)
  | 0, i, acc => if i < tracks.length then none else some acc
  | fuel + 1, i, acc =>
    if i < tracks.length then
      waterfallLoop m resolve tracks fuel (i + m)
        (acc ++ ((tracks.drop i).take m).map resolve)
    else
      some acc

/-- `AnalyzeYoutubeMixHandler.searchTracksWithWaterfall` with concurrency
bound `m` (`config.MAX_CONCURRENT_SEARCHES`) and the per-track resolution
function abstracted.  `tracks.length` iterations of fuel suffice for every
positive `m`; the body performs no validation of `tracks` or `m`. -/
def searchTracksWithWaterfall (m : Nat) (resolve : CleanedTrack → TrackSearchResult)
    (tracks : List CleanedTrack) : Option (List TrackSearchResult) :=
  waterfallLoop m resolve tracks tracks.length 0 []

/-! ## Result aggregation (`AnalyzeYoutubeMixHandler.calculateSummary`) -/

/-- `acc[quality] = (acc[quality] || 0) + 1` on a string-keyed JavaScript
object: bump the existing entry in place, or append a new key at the end
(property insertion order — none of the quality strings is an integer-like
key). -/
def tallyBump : List (Quality × Nat) → Quality → List (Quality × Nat)
  | [], q => [(q, 1)]
  | (k, n) :: rest, q =>
    if k = q then (k, n + 1) :: rest else (k, n) :: tallyBump rest q

/-- `found.map(r => r.quality).filter(Boolean).reduce(bump, {})`: tally the
quality tiers of the found results, skipping absent ones, in encounter
order. -/
def qualityTally (found : List TrackSearchResult) : List (Quality × Nat) :=
  ((found.map (fun r => r.quality)).filterMap id).foldl tallyBump []

/-- `Object.entries(qualityCounts).reduce((a, b) => counts[a[0]] > counts[b[0]] ? a : b)[0]`
over a non-empty tally, `'unknown'` over an empty one: keep the earlier entry
only when its count is strictly larger, so ties go to the later entry in
insertion order. -/
def modalQuality (tally : List (Quality × Nat)) : Quality :=
  match tally with
  | [] => Quality.unknown
  | e :: es => (es.foldl (fun a b => if a.2 > b.2 then a else b) e).1

/-- `ProcessingSummary` from `src/types/index.ts` (the `sourcesUsed` record is
flattened into three fields). -/
structure ProcessingSummary where
  totalTracks : Nat
  foundTracks : Nat
  failedTracks : Nat
  processingTime : Nat
  sourcesNotslider : Nat
  sourcesSoundcloud : Nat
  sourcesYoutube : Nat
  averageQuality : Quality
  estimatedCost : ℚ
  modelUsed : String
deriving DecidableEq, Repr

/-- `AnalyzeYoutubeMixHandler.calculateSummary`. -/
def calculateSummary (results : List TrackSearchResult) (processingTime : Nat) :
    ProcessingSummary :=
  let found := results.filter (fun r => r.found)
  let failed := results.filter (fun r => !r.found)
  { totalTracks := results.length
    foundTracks := found.length
    failedTracks := failed.length
    processingTime := processingTime
    sourcesNotslider := (found.filter (fun r => r.source == some Source.notslider)).length
    sourcesSoundcloud := (found.filter (fun r => r.source == some Source.soundcloud)).length
    sourcesYoutube := (found.filter (fun r => r.source == some Source.youtube)).length
    averageQuality := modalQuality (qualityTally found)
    estimatedCost := 8 / 10000
    modelUsed := "gpt-4o-mini" }

/-! ## LLM response validation (`LLMService.validateAndTransform`) and the
skip-LLM fallback of `AnalyzeYoutubeMixHandler.handle` -/

/-- One element of the parsed LLM JSON array.  A field is `none` when it is
absent or not of the checked type (`typeof item.index !== 'number'`, etc.);
`remixInfo` is `some s` when the field is present and a string (the code's
additional truthiness test on it is modelled at the use site). -/
structure RawItem where
  index : Option ℚ
  artist : Option String
  title : Option String
  remixInfo : Option String
  certainty : Option ℚ
deriving Repr

/-- `typeof item.certainty === 'number' ? Math.max(0, Math.min(1, c)) : 0.5`. -/
def clampCertainty (c : Option ℚ) : ℚ :=
  match c with
  | some v => max 0 (min 1 v)
  | none => 1 / 2

/-- The body of `LLMService.validateAndTransform`'s `map`, iterated with its
running array index.  The regex-based `cleanArtistName` / `cleanTitle`
helpers are abstracted as the string transformers `cleanA` / `cleanT` (no
claim depends on their content); every other field is computed exactly as in
the source, in particular `isValid: certainty >= 0.5` on the clamped
certainty.  A missing required field throws, which aborts the whole map. -/
def validateAndTransformGo (cleanA cleanT : String → String) :
    Nat → List RawItem → Except String (List CleanedTrack)
  | _, [] => Except.ok []
  | i, item :: rest =>
    match item.index, item.artist, item.title with
    | some idx, some artist, some title =>
      let certainty := clampCertainty item.certainty
      let remix : Option String :=
        match item.remixInfo with
        | some s => if s = "" then none else some s.trim
        | none => none
      match validateAndTransformGo cleanA cleanT (i + 1) rest with
      | Except.error e => Except.error e
      | Except.ok tl =>
        Except.ok
          ({ index := idx, original := artist ++ " - " ++ title,
             artist := cleanA artist, title := cleanT title,
             remixInfo := remix, certainty := certainty,
             isValid := decide (certainty ≥ 1 / 2) } :: tl)
    | _, _, _ =>
      Except.error
        ("Invalid track data at index " ++ toString i ++ ": missing required fields")

/-- `LLMService.validateAndTransform` on an already-array response.  (A
non-array response throws before the map; that path carries no
`CleanedTrack`s and is irrelevant to the validity-flag invariant.) -/
def validateAndTransform (cleanA cleanT : String → String) (items : List RawItem) :
    Except String (List CleanedTrack) :=
  validateAndTransformGo cleanA cleanT 0 items

/-- The skip-LLM fallback of `AnalyzeYoutubeMixHandler.handle` (step 6, else
branch): split the raw text on `' - '`, defaulting empty pieces, and build a
`CleanedTrack` with `certainty: 0.3` and `isValid: true`. -/
def cleanedFromRaw (t : RawTrack) : CleanedTrack :=
  let parts := t.rawText.splitOn " - "
  let a := parts.headD ""
  let tl := String.intercalate " - " (parts.drop 1)
  { index := t.index, original := t.rawText,
    artist := if a = "" then "Unknown Artist" else a,
    title := if tl = "" then "Unknown Title" else tl,
    remixInfo := none, certainty := 3 / 10, isValid := true }

/-! ## Specification predicates and sample inputs -/

/-- The `SearchResult` invariant of the spec: `found` holds exactly when a
non-empty `downloadUrl` is present, `source` is present exactly when `found`,
and a found result's source is one of the configured provider
identifiers. -/
def resultInvariant (r : TrackSearchResult) : Prop :=
  (r.found = true ↔ ∃ u, r.downloadUrl = some u ∧ u ≠ "") ∧
  (r.source.isSome = true ↔ r.found = true) ∧
  (r.found = true →
    r.source = some Source.notslider ∨ r.source = some Source.soundcloud ∨
    r.source = some Source.youtube)

/-- `small` occurs contiguously inside `big`. -/
def strContains (big small : String) : Prop :=
  ∃ a b, big = a ++ small ++ b

/-- A concrete track used by witnesses and counterexamples. -/
def sampleTrack : CleanedTrack :=
  { index := 1, original := "A - B", artist := "A", title := "B",
    remixInfo := none, certainty := 9 / 10, isValid := true }

/-- A second concrete track. -/
def sampleTrack2 : CleanedTrack :=
  { index := 2, original := "C - D", artist := "C", title := "D",
    remixInfo := none, certainty := 8 / 10, isValid := true }

/-- An attempt oracle whose fetches succeed but whose pages contain no
candidate link and whose redirect probe throws. -/
def emptyPageOracle : Nat → AttemptOracle :=
  fun _ => { fetch := Except.ok (), links := [], mp3Links := [], redirect := none }

/-- A per-track resolver that finds nothing, used where the resolver's content
is irrelevant. -/
def stubResolve (t : CleanedTrack) : TrackSearchResult :=
  TrackSearchResult.notFound t "x"

/-- An attempt oracle whose fetch always rejects with message `boom`. -/
def errorOracle : Nat → AttemptOracle :=
  fun _ => { fetch := Except.error "boom", links := [], mp3Links := [], redirect := none }

/-- A concrete found result, as NotSlider would produce it. -/
def sampleFoundResult : TrackSearchResult :=
  notsliderFound sampleTrack "https://cdn.example/a.mp3"

/-! ## Helper lemmas -/

/-- With a positive chunk size and enough fuel, the chunk loop completes and
returns the accumulator followed by the image of the remaining tracks, in
input order. -/
theorem waterfallLoop_complete (m : Nat) (resolve : CleanedTrack → TrackSearchResult)
    (tracks : List CleanedTrack) :
    ∀ (fuel i : Nat) (acc : List TrackSearchResult), 0 < m →
      tracks.length ≤ i + fuel * m →
      waterfallLoop m resolve tracks fuel i acc =
        some (acc ++ (tracks.drop i).map resolve) := by
  intro fuel
  induction fuel with
  | zero =>
    intro i acc hm hlen
    simp only [Nat.zero_mul, Nat.add_zero] at hlen
    simp only [waterfallLoop, if_neg (by omega : ¬ i < tracks.length)]
    rw [List.drop_eq_nil_of_le hlen, List.map_nil, List.append_nil]
  | succ fuel ih =>
    intro i acc hm hlen
    by_cases hi : i < tracks.length
    · simp only [waterfallLoop, if_pos hi]
      rw [ih (i + m) _ hm (by rw [Nat.succ_mul] at hlen; omega)]
      have hdrop : tracks.drop (i + m) = (tracks.drop i).drop m := by
        rw [List.drop_drop]
      rw [hdrop, List.append_assoc, ← List.map_append, List.take_append_drop]
    · simp only [waterfallLoop, if_neg hi]
      rw [List.drop_eq_nil_of_le (by omega), List.map_nil, List.append_nil]

/-- Every element of a completed chunk-loop output is either from the
accumulator or the image of some track under the resolver. -/
theorem waterfallLoop_mem (m : Nat) (resolve : CleanedTrack → TrackSearchResult)
    (tracks : List CleanedTrack) :
    ∀ (fuel i : Nat) (acc out : List TrackSearchResult),
      waterfallLoop m resolve tracks fuel i acc = some out →
      ∀ x ∈ out, x ∈ acc ∨ ∃ tr, x = resolve tr := by
  intro fuel
  induction fuel with
  | zero =>
    intro i acc out h x hx
    by_cases hi : i < tracks.length
    · simp [waterfallLoop, if_pos hi] at h
    · simp only [waterfallLoop, if_neg hi, Option.some.injEq] at h
      exact Or.inl (h ▸ hx)
  | succ fuel ih =>
    intro i acc out h x hx
    by_cases hi : i < tracks.length
    · simp only [waterfallLoop, if_pos hi] at h
      rcases ih (i + m) _ out h x hx with hmem | hres
      · rcases List.mem_append.mp hmem with ha | hb
        · exact Or.inl ha
        · rcases List.mem_map.mp hb with ⟨tr, _, rfl⟩
          exact Or.inr ⟨tr, rfl⟩
      · exact Or.inr hres
    · simp only [waterfallLoop, if_neg hi, Option.some.injEq] at h
      exact Or.inl (h ▸ hx)

/-- Every return path of the NotSlider retry loop carries the input track. -/
theorem notsliderGo_track (base : String) (t : CleanedTrack) (o : Nat → AttemptOracle) :
    ∀ (fuel attempt : Nat), (notsliderGo base t o attempt fuel).1.track = t := by
  intro fuel
  induction fuel with
  | zero => intro attempt; rfl
  | succ fuel ih =>
    intro attempt
    simp only [notsliderGo]
    cases (o attempt).fetch with
    | error e =>
      by_cases ha : attempt = retryAttempts - 1
      · simp [ha, TrackSearchResult.notFound]
      · simp only [if_neg ha]
        exact ih (attempt + 1)
    | ok u =>
      cases extractDownloadUrl base (o attempt).links (o attempt).mp3Links with
      | some url => rfl
      | none => exact ih (attempt + 1)

/-- A string of length zero is the empty string. -/
theorem string_eq_empty_of_length_zero (b : String) (h : b.length = 0) : b = "" := by
  cases b with
  | mk data =>
    cases data with
    | nil => rfl
    | cons c cs => simp [String.length] at h

/-- Appending on the left preserves non-emptiness. -/
theorem string_append_right_ne (a b : String) (h : b ≠ "") : a ++ b ≠ "" := by
  intro habs
  apply h
  have hl : (a ++ b).length = 0 := by rw [habs]; rfl
  rw [String.length_append] at hl
  exact string_eq_empty_of_length_zero b (by omega)

/-- A URL returned by `extractDownloadUrl` is never the empty string. -/
theorem extractDownloadUrl_ne_empty (base : String) (links mp3Links : List String)
    (u : String) (h : extractDownloadUrl base links mp3Links = some u) : u ≠ "" := by
  unfold extractDownloadUrl at h
  cases hf : links.find? (fun h => !(h == "") && (h.startsWith "http" || h.startsWith "/")) with
  | some href =>
    rw [hf] at h
    have hp := List.find?_some hf
    have hne : href ≠ "" := by
      intro he
      rw [he] at hp
      simp at hp
    simp only [Option.some.injEq] at h
    subst h
    by_cases hs : href.startsWith "/"
    · simp only [if_pos hs]
      exact string_append_right_ne base href hne
    · simp only [if_neg hs]
      exact hne
  | none =>
    rw [hf] at h
    cases mp3Links with
    | nil => simp at h
    | cons href rest =>
      simp only at h
      by_cases he : href == ""
      · rw [if_pos he] at h; simp at h
      · rw [if_neg he] at h
        simp only [Option.some.injEq] at h
        subst h
        have hne : href ≠ "" := by simpa using he
        by_cases hs : href.startsWith "http"
        · simp only [if_pos hs]; exact hne
        · simp only [if_neg hs]
          exact string_append_right_ne base href hne

/-- Every not-found object literal satisfies the `SearchResult` invariant. -/
theorem notFound_invariant (t : CleanedTrack) (e : String) :
    resultInvariant (TrackSearchResult.notFound t e) := by
  refine ⟨?_, ?_, ?_⟩ <;> simp [TrackSearchResult.notFound, resultInvariant]

/-- Every result of the NotSlider retry loop satisfies the `SearchResult`
invariant, provided the redirect probe never reports an empty final URL. -/
theorem notsliderGo_invariant (base : String) (t : CleanedTrack) (o : Nat → AttemptOracle)
    (hred : ∀ k u, (o k).redirect = some u → u ≠ "") :
    ∀ (fuel attempt : Nat), resultInvariant (notsliderGo base t o attempt fuel).1 := by
  intro fuel
  induction fuel with
  | zero => intro attempt; exact notFound_invariant t _
  | succ fuel ih =>
    intro attempt
    simp only [notsliderGo]
    cases hfe : (o attempt).fetch with
    | error e =>
      by_cases ha : attempt = retryAttempts - 1
      · simp only [if_pos ha]
        exact notFound_invariant t _
      · simp only [if_neg ha]
        exact ih (attempt + 1)
    | ok u =>
      cases hx : extractDownloadUrl base (o attempt).links (o attempt).mp3Links with
      | some url =>
        have hfin : followRedirect url (o attempt).redirect ≠ "" := by
          unfold followRedirect
          cases hr : (o attempt).redirect with
          | some v => simpa using hred attempt v hr
          | none => simpa using extractDownloadUrl_ne_empty base _ _ url hx
        refine ⟨?_, ?_, ?_⟩
        · simp [notsliderFound]
          exact hfin
        · simp [notsliderFound]
        · intro _
          exact Or.inl rfl
      | none => exact ih (attempt + 1)

/-- The coordinator's result satisfies the `SearchResult` invariant whenever
the three providers' results do. -/
theorem searchSingleTrack_invariant (t : CleanedTrack) (n s y : TrackSearchResult)
    (hn : resultInvariant n) (hs : resultInvariant s) (hy : resultInvariant y) :
    resultInvariant (searchSingleTrack t (Except.ok n) (Except.ok s) (Except.ok y)).2 := by
  simp only [searchSingleTrack]
  by_cases hnf : n.found = true
  · simpa [hnf] using hn
  · simp only [Bool.not_eq_true] at hnf
    by_cases hsf : s.found = true
    · simpa [hnf, hsf] using hs
    · simp only [Bool.not_eq_true] at hsf
      by_cases hyf : y.found = true
      · simpa [hnf, hsf, hyf] using hy
      · simp only [Bool.not_eq_true] at hyf
        simp only [hnf, hsf, hyf]
        exact notFound_invariant t _

/-- Per-track resolution through the actual provider set satisfies the
`SearchResult` invariant, for every network behaviour whose redirect probes
never report an empty final URL. -/
theorem pipelineResolve_invariant (base : String) (o : Nat → AttemptOracle)
    (t : CleanedTrack) (hred : ∀ k u, (o k).redirect = some u → u ≠ "") :
    resultInvariant (pipelineResolve base o t) := by
  unfold pipelineResolve
  exact searchSingleTrack_invariant t _ _ _
    (notsliderGo_invariant base t o hred retryAttempts 0)
    (notFound_invariant t _) (notFound_invariant t _)

/-- The coordinator's result carries the input track whenever the three
providers' results do. -/
theorem searchSingleTrack_track (t : CleanedTrack) (n s y : TrackSearchResult)
    (hn : n.track = t) (hs : s.track = t) (hy : y.track = t) :
    (searchSingleTrack t (Except.ok n) (Except.ok s) (Except.ok y)).2.track = t := by
  simp only [searchSingleTrack]
  by_cases hnf : n.found = true
  · simpa [hnf] using hn
  · simp only [Bool.not_eq_true] at hnf
    by_cases hsf : s.found = true
    · simpa [hnf, hsf] using hs
    · simp only [Bool.not_eq_true] at hsf
      by_cases hyf : y.found = true
      · simpa [hnf, hsf, hyf] using hy
      · simp only [Bool.not_eq_true] at hyf
        simp [hnf, hsf, hyf, allSourcesFailed, TrackSearchResult.notFound]

/-- Per-track resolution through the actual provider set returns a result
whose `track` field is the input track, for every network behaviour. -/
theorem pipelineResolve_track (base : String) (o : Nat → AttemptOracle) (t : CleanedTrack) :
    (pipelineResolve base o t).track = t := by
  unfold pipelineResolve
  exact searchSingleTrack_track t _ _ _ (notsliderGo_track base t o retryAttempts 0) rfl rfl

/-! ## Claim theorems -/

/-- C3: the claim states that concurrent `RateLimiter.throttle` callers for
one provider serialize their waits through an atomic read-modify-write of the
last-dispatch timestamp, so that no two dispatches to that provider are
closer together than its configured minimum delay.  The code instead reads
the timestamp, sleeps for the computed remainder, and only then writes — with
no re-check after the sleep.  Evaluating the model at a concrete failing
input: two callers invoke `throttle("notslider")` concurrently at t = 500 ms
on a fresh limiter; both read `last = 0`, both compute the same wake-up time,
and both dispatch at t = 1000 ms — zero milliseconds apart, violating the
1000 ms minimum interval. -/
theorem throttle_concurrent_interval_violation :
    throttleDispatchTimes "notslider" 500 2 = [1000, 1000] ∧
    ¬ dispatchesSpaced 1000 (throttleDispatchTimes "notslider" 500 2) := by
  constructor
  · rfl
  · decide

/-- C10: for every result list in which no element has `found = true`,
`calculateSummary` reports `averageQuality = 'unknown'` and a zero count for
each of the three sources. -/
theorem summary_all_failed (results : List TrackSearchResult) (pt : Nat)
    (h : ∀ r ∈ results, r.found = false) :
    (calculateSummary results pt).averageQuality = Quality.unknown ∧
    (calculateSummary results pt).sourcesNotslider = 0 ∧
    (calculateSummary results pt).sourcesSoundcloud = 0 ∧
    (calculateSummary results pt).sourcesYoutube = 0 := by
  have hf : results.filter (fun r => r.found) = [] := by
    rw [List.filter_eq_nil_iff]
    intro a ha
    simp [h a ha]
  refine ⟨?_, ?_, ?_, ?_⟩ <;>
    simp [calculateSummary, hf, qualityTally, modalQuality]

/-- Witness for C10 at a concrete two-element all-failed result list. -/
theorem summary_all_failed_witness :
    (calculateSummary [TrackSearchResult.notFound sampleTrack "x",
        TrackSearchResult.notFound sampleTrack2 "y"] 7).averageQuality = Quality.unknown ∧
    (calculateSummary [TrackSearchResult.notFound sampleTrack "x",
        TrackSearchResult.notFound sampleTrack2 "y"] 7).sourcesNotslider = 0 ∧
    (calculateSummary [TrackSearchResult.notFound sampleTrack "x",
        TrackSearchResult.notFound sampleTrack2 "y"] 7).sourcesSoundcloud = 0 ∧
    (calculateSummary [TrackSearchResult.notFound sampleTrack "x",
        TrackSearchResult.notFound sampleTrack2 "y"] 7).sourcesYoutube = 0 :=
  summary_all_failed _ 7 (by decide)

/-- C6 counterexample: the claim states that an empty track list or a
concurrency value ≤ 0 makes the batch core fail fast with an error before any
network activity.  The code performs no such validation: with concurrency 0
and a non-empty list the chunk loop never completes (the model returns `none`
for the loop's own fuel bound, and `waterfall_misuse_behavior` shows `none`
for every bound — the loop runs forever), and with an empty list it returns a
successful empty result list instead of an error. -/
theorem waterfall_no_fail_fast_cex :
    searchTracksWithWaterfall 0 stubResolve [sampleTrack] = none ∧
    searchTracksWithWaterfall 3 stubResolve [] = some [] :=
  ⟨rfl, rfl⟩

/-- C6 (amended): `searchTracksWithWaterfall` performs no invocation-level
validation.  An empty track list yields a successful empty result list
(no error is raised); a concurrency value of 0 with a non-empty track list
makes the chunk loop `for (i = 0; i < tracks.length; i += 0)` run forever —
no number of iterations ever completes it — while dispatching no request
(every chunk `slice(i, i)` is empty). -/
theorem waterfall_misuse_behavior :
    (∀ (resolve : CleanedTrack → TrackSearchResult) (m : Nat),
      searchTracksWithWaterfall m resolve [] = some []) ∧
    (∀ (resolve : CleanedTrack → TrackSearchResult) (tracks : List CleanedTrack)
        (fuel i : Nat) (acc : List TrackSearchResult),
      i < tracks.length → waterfallLoop 0 resolve tracks fuel i acc = none) := by
  constructor
  · intro resolve m
    rfl
  · intro resolve tracks fuel
    induction fuel with
    | zero =>
      intro i acc hi
      simp [waterfallLoop, hi]
    | succ fuel ih =>
      intro i acc hi
      simp only [waterfallLoop, if_pos hi]
      exact ih (i + 0) _ (by simpa using hi)

/-- Witness for C6 (amended) at concrete inputs. -/
theorem waterfall_misuse_behavior_witness :
    searchTracksWithWaterfall 5 stubResolve [] = some [] ∧
    waterfallLoop 0 stubResolve [sampleTrack] 7 0 [] = none :=
  ⟨waterfall_misuse_behavior.1 stubResolve 5,
   waterfall_misuse_behavior.2 stubResolve [sampleTrack] 7 0 [] (by decide)⟩

/-- Every track emitted by the LLM validation map has its validity flag equal
to the comparison of its (clamped) certainty with 0.5, for any starting array
index. -/
theorem validateAndTransformGo_validity (cleanA cleanT : String → String) :
    ∀ (items : List RawItem) (i : Nat) (out : List CleanedTrack),
      validateAndTransformGo cleanA cleanT i items = Except.ok out →
      ∀ r ∈ out, r.isValid = decide (r.certainty ≥ 1 / 2) := by
  intro items
  induction items with
  | nil =>
    intro i out h r hr
    simp only [validateAndTransformGo, Except.ok.injEq] at h
    subst h
    simp at hr
  | cons item rest ih =>
    intro i out h r hr
    simp only [validateAndTransformGo] at h
    cases h1 : item.index with
    | none => rw [h1] at h; simp at h
    | some idx =>
      cases h2 : item.artist with
      | none => rw [h1, h2] at h; simp at h
      | some artist =>
        cases h3 : item.title with
        | none => rw [h1, h2, h3] at h; simp at h
        | some title =>
          rw [h1, h2, h3] at h
          cases hrec : validateAndTransformGo cleanA cleanT (i + 1) rest with
          | error e => rw [hrec] at h; simp at h
          | ok tl =>
            rw [hrec] at h
            simp only [Except.ok.injEq] at h
            subst h
            rcases List.mem_cons.mp hr with rfl | hmem
            · rfl
            · exact ih (i + 1) tl hrec r hmem

/-- C4 counterexample: the claim states every `CleanedTrack` produced by the
pipeline satisfies `isValid == (certainty >= 0.5)`.  The skip-LLM fallback of
`AnalyzeYoutubeMixHandler.handle` violates it at the concrete raw track
`"A - B"`: that path hard-codes `certainty: 0.3` with `isValid: true`. -/
theorem skip_llm_validity_flag_cex :
    (cleanedFromRaw { index := 1, timestamp := none, rawText := "A - B" }).isValid = true ∧
    ¬ ((cleanedFromRaw { index := 1, timestamp := none, rawText := "A - B" }).certainty ≥ 1 / 2) := by
  constructor
  · rfl
  · simp only [cleanedFromRaw]
    norm_num

/-- C4 (amended): tracks produced by the LLM cleanup service
(`LLMService.validateAndTransform`) satisfy `isValid == (certainty >= 0.5)`;
the handler's skip-LLM fallback path instead sets `certainty = 0.3` and
`isValid = true` unconditionally, so the equivalence holds only for the LLM
path. -/
theorem validity_flag_behavior (cleanA cleanT : String → String) (items : List RawItem)
    (out : List CleanedTrack) (h : validateAndTransform cleanA cleanT items = Except.ok out) :
    (∀ r ∈ out, r.isValid = decide (r.certainty ≥ 1 / 2)) ∧
    ∀ t : RawTrack, (cleanedFromRaw t).certainty = 3 / 10 ∧ (cleanedFromRaw t).isValid = true := by
  constructor
  · exact validateAndTransformGo_validity cleanA cleanT items 0 out h
  · intro t
    exact ⟨rfl, rfl⟩

/-- Witness for C4 (amended): a concrete one-item LLM response with
certainty 0.3. -/
theorem validity_flag_behavior_witness :
    (∀ r ∈ (validateAndTransform id id
        [{ index := some 1, artist := some "A", title := some "B", remixInfo := none, certainty := some (3 / 10) }]).toOption.getD [],
      r.isValid = decide (r.certainty ≥ 1 / 2)) ∧
    ∀ t : RawTrack, (cleanedFromRaw t).certainty = 3 / 10 ∧ (cleanedFromRaw t).isValid = true :=
  validity_flag_behavior id id
    [{ index := some 1, artist := some "A", title := some "B", remixInfo := none, certainty := some (3 / 10) }]
    _ (by rfl)

/-- C5 counterexample: the claim states that whenever a `NotSliderService`
attempt completes without finding a candidate and attempts remain, the
resolver waits `base_delay * 2^attempt` before the next attempt, and that
exhaustion returns a result carrying the final attempt's error detail.  At
the concrete input where both fetches succeed but neither page yields a
candidate link, both attempts run back-to-back with an empty backoff trace
(the claim requires a `1000 * 2^0` wait between them), and the exhausted
result carries the fixed message rather than any attempt's error detail. -/
theorem notslider_no_backoff_without_error_cex :
    notsliderSearch "https://notslider.nl" sampleTrack emptyPageOracle =
      (TrackSearchResult.notFound sampleTrack "No 320kbps MP3 found", []) ∧
    1000 * 2 ^ 0 ∉ (notsliderSearch "https://notslider.nl" sampleTrack emptyPageOracle).2 := by
  constructor
  · rfl
  · intro h
    simp [notsliderSearch, notsliderGo, emptyPageOracle, extractDownloadUrl] at h

/-- C5 (amended): the backoff `1000 * 2^attempt` is awaited only when an
attempt *raised a transport/HTTP error* and attempts remain; an attempt that
completes without error but finds no candidate retries immediately with no
wait.  On exhaustion, the result carries the final attempt's error detail
(`Search failed after 2 attempts: <message>`) when the final attempt raised
an error, and the fixed message `No 320kbps MP3 found` when the final attempt
completed without error and without a candidate. -/
theorem notslider_backoff_behavior (base : String) (t : CleanedTrack)
    (o : Nat → AttemptOracle) :
    (∀ e, (o 0).fetch = Except.error e → (notsliderSearch base t o).2 = [1000 * 2 ^ 0]) ∧
    ((o 0).fetch = Except.ok () →
      extractDownloadUrl base (o 0).links (o 0).mp3Links = none →
      (notsliderSearch base t o).2 = []) ∧
    (∀ e1, ((∃ e, (o 0).fetch = Except.error e) ∨
        ((o 0).fetch = Except.ok () ∧ extractDownloadUrl base (o 0).links (o 0).mp3Links = none)) →
      (o 1).fetch = Except.error e1 →
      (notsliderSearch base t o).1 =
        TrackSearchResult.notFound t ("Search failed after 2 attempts: " ++ e1)) ∧
    (((∃ e, (o 0).fetch = Except.error e) ∨
        ((o 0).fetch = Except.ok () ∧ extractDownloadUrl base (o 0).links (o 0).mp3Links = none)) →
      (o 1).fetch = Except.ok () →
      extractDownloadUrl base (o 1).links (o 1).mp3Links = none →
      (notsliderSearch base t o).1 = TrackSearchResult.notFound t "No 320kbps MP3 found") := by
  refine ⟨?_, ?_, ?_, ?_⟩
  · intro e h0
    cases h1 : (o 1).fetch with
    | error e1 => simp [notsliderSearch, notsliderGo, retryAttempts, h0, h1]
    | ok u =>
      cases hx : extractDownloadUrl base (o 1).links (o 1).mp3Links with
      | some url => simp [notsliderSearch, notsliderGo, retryAttempts, h0, h1, hx]
      | none => simp [notsliderSearch, notsliderGo, retryAttempts, h0, h1, hx]
  · intro h0 hx0
    cases h1 : (o 1).fetch with
    | error e1 => simp [notsliderSearch, notsliderGo, retryAttempts, h0, hx0, h1]
    | ok u =>
      cases hx : extractDownloadUrl base (o 1).links (o 1).mp3Links with
      | some url => simp [notsliderSearch, notsliderGo, retryAttempts, h0, hx0, h1, hx]
      | none => simp [notsliderSearch, notsliderGo, retryAttempts, h0, hx0, h1, hx]
  · intro e1 hfirst h1
    rcases hfirst with ⟨e, h0⟩ | ⟨h0, hx0⟩
    · simp [notsliderSearch, notsliderGo, retryAttempts, h0, h1]
      rfl
    · simp [notsliderSearch, notsliderGo, retryAttempts, h0, hx0, h1]
      rfl
  · intro hfirst h1 hx1
    rcases hfirst with ⟨e, h0⟩ | ⟨h0, hx0⟩
    · simp [notsliderSearch, notsliderGo, retryAttempts, h0, h1, hx1]
    · simp [notsliderSearch, notsliderGo, retryAttempts, h0, hx0, h1, hx1]

/-- Witness for C5 (amended): both attempts of the concrete error oracle
reject, so the run records exactly one backoff of `1000 * 2^0` ms and the
result carries the final attempt's error detail. -/
theorem notslider_backoff_behavior_witness :
    (notsliderSearch "https://notslider.nl" sampleTrack errorOracle).2 = [1000 * 2 ^ 0] ∧
    (notsliderSearch "https://notslider.nl" sampleTrack errorOracle).1 =
      TrackSearchResult.notFound sampleTrack ("Search failed after 2 attempts: " ++ "boom") :=
  ⟨(notslider_backoff_behavior "https://notslider.nl" sampleTrack errorOracle).1 "boom" rfl,
   (notslider_backoff_behavior "https://notslider.nl" sampleTrack errorOracle).2.2.1 "boom"
     (Or.inl ⟨"boom", rfl⟩) rfl⟩

/-- The event trace of one `searchSingleTrack` run is one of exactly three
lists, depending on where the waterfall stops. -/
theorem searchSingleTrack_trace_cases (t : CleanedTrack)
    (r1 r2 r3 : Except String TrackSearchResult) :
    (searchSingleTrack t r1 r2 r3).1 =
      [Ev.throttle "notslider", Ev.call Source.notslider] ∨
    (searchSingleTrack t r1 r2 r3).1 =
      [Ev.throttle "notslider", Ev.call Source.notslider,
       Ev.throttle "soundcloud", Ev.call Source.soundcloud] ∨
    (searchSingleTrack t r1 r2 r3).1 =
      [Ev.throttle "notslider", Ev.call Source.notslider,
       Ev.throttle "soundcloud", Ev.call Source.soundcloud, Ev.call Source.youtube] := by
  rcases r1 with e1 | n
  · exact Or.inl rfl
  · by_cases hn : n.found = true
    · exact Or.inl (by simp [searchSingleTrack, hn])
    · simp only [Bool.not_eq_true] at hn
      rcases r2 with e2 | s
      · exact Or.inr (Or.inl (by simp [searchSingleTrack, hn]))
      · by_cases hs : s.found = true
        · exact Or.inr (Or.inl (by simp [searchSingleTrack, hn, hs]))
        · simp only [Bool.not_eq_true] at hs
          rcases r3 with e3 | y
          · exact Or.inr (Or.inr (by simp [searchSingleTrack, hn, hs]))
          · by_cases hy : y.found = true
            · exact Or.inr (Or.inr (by simp [searchSingleTrack, hn, hs, hy]))
            · simp only [Bool.not_eq_true] at hy
              exact Or.inr (Or.inr (by simp [searchSingleTrack, hn, hs, hy]))

/-- C2 counterexample: the claim states `RateLimiter.throttle` is called with
the provider's identifier before *every* provider attempt, in particular
before the youtube-dl attempt whenever it is tried.  At the concrete input
where NotSlider and SoundCloud both miss, the run's full event trace is the
list below: the youtube-dl provider call (last event) is preceded by no
throttle call at all for it — the only throttle events in the whole trace are
for `notslider` and `soundcloud`. -/
theorem youtube_call_without_throttle_cex :
    (searchSingleTrack sampleTrack
        (Except.ok (TrackSearchResult.notFound sampleTrack "e1"))
        (Except.ok (soundcloudSearch sampleTrack))
        (Except.ok (youtubeDlSearch sampleTrack))).1 =
      [Ev.throttle "notslider", Ev.call Source.notslider,
       Ev.throttle "soundcloud", Ev.call Source.soundcloud, Ev.call Source.youtube] ∧
    ((searchSingleTrack sampleTrack
        (Except.ok (TrackSearchResult.notFound sampleTrack "e1"))
        (Except.ok (soundcloudSearch sampleTrack))
        (Except.ok (youtubeDlSearch sampleTrack))).1.filter
      (fun e => match e with | Ev.throttle _ => true | Ev.call _ => false)) =
      [Ev.throttle "notslider", Ev.throttle "soundcloud"] := by
  constructor
  · rfl
  · rfl

/-- C2 (amended): for every track and every provider behaviour, each tried
NotSlider attempt is preceded by a `throttle("notslider")` call and each
tried SoundCloud attempt by a `throttle("soundcloud")` call (as ordered
subsequences of the event trace); the youtube-dl attempt is never preceded
by a throttle call for it — the only throttle identifiers ever passed are
`notslider` and `soundcloud`. -/
theorem throttle_precedes_tried_providers (t : CleanedTrack)
    (r1 r2 r3 : Except String TrackSearchResult) :
    (Ev.call Source.notslider ∈ (searchSingleTrack t r1 r2 r3).1 →
      List.Sublist [Ev.throttle "notslider", Ev.call Source.notslider]
        (searchSingleTrack t r1 r2 r3).1) ∧
    (Ev.call Source.soundcloud ∈ (searchSingleTrack t r1 r2 r3).1 →
      List.Sublist [Ev.throttle "soundcloud", Ev.call Source.soundcloud]
        (searchSingleTrack t r1 r2 r3).1) ∧
    (∀ sv, Ev.throttle sv ∈ (searchSingleTrack t r1 r2 r3).1 →
      sv = "notslider" ∨ sv = "soundcloud") := by
  rcases searchSingleTrack_trace_cases t r1 r2 r3 with h | h | h <;> rw [h]
  · refine ⟨fun _ => ?_, fun hmem => ?_, fun sv hmem => ?_⟩
    · decide
    · simp at hmem
    · simp only [List.mem_cons, List.not_mem_nil, or_false] at hmem
      rcases hmem with he | he <;> simp_all
  · refine ⟨fun _ => ?_, fun _ => ?_, fun sv hmem => ?_⟩
    · decide
    · decide
    · simp only [List.mem_cons, List.not_mem_nil, or_false] at hmem
      rcases hmem with he | he | he | he <;> simp_all
  · refine ⟨fun _ => ?_, fun _ => ?_, fun sv hmem => ?_⟩
    · decide
    · decide
    · simp only [List.mem_cons, List.not_mem_nil, or_false] at hmem
      rcases hmem with he | he | he | he | he <;> simp_all

/-- Witness for C2 (amended) at a concrete all-miss run. -/
theorem throttle_precedes_tried_providers_witness :
    List.Sublist [Ev.throttle "notslider", Ev.call Source.notslider]
      (searchSingleTrack sampleTrack
        (Except.ok (TrackSearchResult.notFound sampleTrack "e1"))
        (Except.ok (soundcloudSearch sampleTrack))
        (Except.ok (youtubeDlSearch sampleTrack))).1 ∧
    List.Sublist [Ev.throttle "soundcloud", Ev.call Source.soundcloud]
      (searchSingleTrack sampleTrack
        (Except.ok (TrackSearchResult.notFound sampleTrack "e1"))
        (Except.ok (soundcloudSearch sampleTrack))
        (Except.ok (youtubeDlSearch sampleTrack))).1 ∧
    ("notslider" = "notslider" ∨ "notslider" = "soundcloud") :=
  ⟨(throttle_precedes_tried_providers sampleTrack _ _ _).1 (by decide),
   (throttle_precedes_tried_providers sampleTrack _ _ _).2.1 (by decide),
   (throttle_precedes_tried_providers sampleTrack
      (Except.ok (TrackSearchResult.notFound sampleTrack "e1"))
      (Except.ok (soundcloudSearch sampleTrack))
      (Except.ok (youtubeDlSearch sampleTrack))).2.2 "notslider" (by decide)⟩

/-- C8: if an earlier provider in the priority order returns `found = true`,
no later provider is invoked for that track and the coordinator returns that
provider's result verbatim: a found NotSlider result short-circuits both
SoundCloud and YouTube-dl; a found SoundCloud result (after a NotSlider miss)
short-circuits YouTube-dl. -/
theorem waterfall_short_circuit (t : CleanedTrack) (n s : TrackSearchResult)
    (r2 r3 : Except String TrackSearchResult) :
    (n.found = true →
      (searchSingleTrack t (Except.ok n) r2 r3).2 = n ∧
      Ev.call Source.soundcloud ∉ (searchSingleTrack t (Except.ok n) r2 r3).1 ∧
      Ev.call Source.youtube ∉ (searchSingleTrack t (Except.ok n) r2 r3).1) ∧
    (n.found = false → s.found = true →
      (searchSingleTrack t (Except.ok n) (Except.ok s) r3).2 = s ∧
      Ev.call Source.youtube ∉ (searchSingleTrack t (Except.ok n) (Except.ok s) r3).1) := by
  constructor
  · intro hn
    refine ⟨?_, ?_, ?_⟩ <;> simp [searchSingleTrack, hn]
  · intro hn hs
    refine ⟨?_, ?_⟩ <;> simp [searchSingleTrack, hn, hs]

/-- Witness for C8: a concrete found NotSlider result short-circuits, and a
concrete found SoundCloud result after a NotSlider miss short-circuits. -/
theorem waterfall_short_circuit_witness :
    ((searchSingleTrack sampleTrack (Except.ok sampleFoundResult)
        (Except.ok (soundcloudSearch sampleTrack))
        (Except.ok (youtubeDlSearch sampleTrack))).2 = sampleFoundResult ∧
      Ev.call Source.soundcloud ∉ (searchSingleTrack sampleTrack (Except.ok sampleFoundResult)
        (Except.ok (soundcloudSearch sampleTrack))
        (Except.ok (youtubeDlSearch sampleTrack))).1 ∧
      Ev.call Source.youtube ∉ (searchSingleTrack sampleTrack (Except.ok sampleFoundResult)
        (Except.ok (soundcloudSearch sampleTrack))
        (Except.ok (youtubeDlSearch sampleTrack))).1) ∧
    ((searchSingleTrack sampleTrack (Except.ok (TrackSearchResult.notFound sampleTrack "e1"))
        (Except.ok sampleFoundResult) (Except.ok (youtubeDlSearch sampleTrack))).2 =
          sampleFoundResult ∧
      Ev.call Source.youtube ∉ (searchSingleTrack sampleTrack
        (Except.ok (TrackSearchResult.notFound sampleTrack "e1"))
        (Except.ok sampleFoundResult) (Except.ok (youtubeDlSearch sampleTrack))).1) :=
  ⟨(waterfall_short_circuit sampleTrack sampleFoundResult (soundcloudSearch sampleTrack)
      (Except.ok (soundcloudSearch sampleTrack))
      (Except.ok (youtubeDlSearch sampleTrack))).1 rfl,
   (waterfall_short_circuit sampleTrack (TrackSearchResult.notFound sampleTrack "e1")
      sampleFoundResult (Except.ok sampleFoundResult)
      (Except.ok (youtubeDlSearch sampleTrack))).2 rfl rfl⟩

/-- C9: when all three providers return `found = false`, the coordinator
returns a single not-found result whose error string contains each provider's
individual error string as a contiguous substring. -/
theorem all_fail_error_concatenation (t : CleanedTrack) (n s y : TrackSearchResult)
    (hn : n.found = false) (hs : s.found = false) (hy : y.found = false)
    (en es ey : String) (hne : n.error = some en) (hse : s.error = some es)
    (hye : y.error = some ey) :
    (searchSingleTrack t (Except.ok n) (Except.ok s) (Except.ok y)).2.found = false ∧
    ∃ E, (searchSingleTrack t (Except.ok n) (Except.ok s) (Except.ok y)).2.error = some E ∧
      strContains E en ∧ strContains E es ∧ strContains E ey := by
  have hres : (searchSingleTrack t (Except.ok n) (Except.ok s) (Except.ok y)).2 =
      allSourcesFailed t n s y := by
    simp [searchSingleTrack, hn, hs, hy]
  rw [hres]
  refine ⟨rfl, ?_⟩
  refine ⟨"Not found on any source. NotSlider: " ++ en ++ ", SoundCloud: " ++ es ++
    ", YouTube-dl: " ++ ey, ?_, ?_, ?_, ?_⟩
  · simp [allSourcesFailed, TrackSearchResult.notFound, errText, hne, hse, hye]
  · exact ⟨"Not found on any source. NotSlider: ",
      ", SoundCloud: " ++ es ++ ", YouTube-dl: " ++ ey,
      by simp [String.append_assoc]⟩
  · exact ⟨"Not found on any source. NotSlider: " ++ en ++ ", SoundCloud: ",
      ", YouTube-dl: " ++ ey, by simp [String.append_assoc]⟩
  · exact ⟨"Not found on any source. NotSlider: " ++ en ++ ", SoundCloud: " ++ es ++
      ", YouTube-dl: ", "", by simp [String.append_assoc]⟩

/-- Witness for C9 at a concrete all-miss run with the actual stub providers'
error messages. -/
theorem all_fail_error_concatenation_witness :
    (searchSingleTrack sampleTrack (Except.ok (TrackSearchResult.notFound sampleTrack "e1"))
      (Except.ok (soundcloudSearch sampleTrack))
      (Except.ok (youtubeDlSearch sampleTrack))).2.found = false ∧
    ∃ E, (searchSingleTrack sampleTrack
        (Except.ok (TrackSearchResult.notFound sampleTrack "e1"))
        (Except.ok (soundcloudSearch sampleTrack))
        (Except.ok (youtubeDlSearch sampleTrack))).2.error = some E ∧
      strContains E "e1" ∧ strContains E "SoundCloud integration not yet implemented" ∧
      strContains E "yt-dlp service not yet implemented" :=
  all_fail_error_concatenation sampleTrack _ _ _ rfl rfl rfl
    "e1" "SoundCloud integration not yet implemented" "yt-dlp service not yet implemented"
    rfl rfl rfl

/-- C1: for every non-empty input track list, every positive concurrency
bound and every behaviour of the network (one NotSlider attempt-oracle per
track — completion order and timing of the concurrent per-track searches can
only influence results through these oracles, over which the statement
quantifies), the batch resolution completes and returns a result list of the
same length in which the result at every index carries exactly the input
track at that index. -/
theorem waterfall_preserves_order_and_identity (base : String)
    (O : CleanedTrack → Nat → AttemptOracle) (tracks : List CleanedTrack) (m : Nat)
    (hne : tracks ≠ []) (hm : 0 < m) :
    ∃ out, searchTracksWithWaterfall m (fun t => pipelineResolve base (O t) t) tracks =
        some out ∧
      out.length = tracks.length ∧
      ∀ (i : Nat) (h1 : i < out.length) (h2 : i < tracks.length),
        (out.get ⟨i, h1⟩).track = tracks.get ⟨i, h2⟩ := by
  refine ⟨tracks.map (fun t => pipelineResolve base (O t) t), ?_, ?_, ?_⟩
  · have hrun := waterfallLoop_complete m (fun t => pipelineResolve base (O t) t) tracks
      tracks.length 0 [] hm
      (by have := Nat.le_mul_of_pos_right tracks.length hm; omega)
    simpa [searchTracksWithWaterfall] using hrun
  · simp
  · intro i h1 h2
    simp only [List.get_eq_getElem, List.getElem_map]
    exact pipelineResolve_track base (O _) _

/-- Witness for C1: a concrete two-track batch resolved with concurrency 1
against empty result pages. -/
theorem waterfall_preserves_order_and_identity_witness :
    ∃ out, searchTracksWithWaterfall 1
        (fun t => pipelineResolve "https://notslider.nl" ((fun _ => emptyPageOracle) t) t)
        [sampleTrack, sampleTrack2] = some out ∧
      out.length = [sampleTrack, sampleTrack2].length ∧
      ∀ (i : Nat) (h1 : i < out.length) (h2 : i < [sampleTrack, sampleTrack2].length),
        (out.get ⟨i, h1⟩).track = [sampleTrack, sampleTrack2].get ⟨i, h2⟩ :=
  waterfall_preserves_order_and_identity "https://notslider.nl" (fun _ => emptyPageOracle)
    [sampleTrack, sampleTrack2] 1 (by decide) (by decide)

/-- C7: every `TrackSearchResult` produced by a completed batch resolution
through the actual provider set satisfies the `SearchResult` invariant —
`found = true` exactly when a non-empty `downloadUrl` is present, `source` is
present exactly when `found`, and a found result's source is one of the
configured provider identifiers — for every network behaviour whose redirect
probes never report an empty final URL. -/
theorem pipeline_result_invariant (base : String) (O : CleanedTrack → Nat → AttemptOracle)
    (tracks : List CleanedTrack) (m : Nat) (out : List TrackSearchResult)
    (hred : ∀ t k u, (O t k).redirect = some u → u ≠ "")
    (h : searchTracksWithWaterfall m (fun t => pipelineResolve base (O t) t) tracks =
      some out) :
    ∀ r ∈ out, resultInvariant r := by
  intro r hr
  rcases waterfallLoop_mem m _ tracks tracks.length 0 [] out h r hr with habs | ⟨tr, rfl⟩
  · simp at habs
  · exact pipelineResolve_invariant base (O tr) tr (fun k u => hred tr k u)

/-- Witness for C7: the concrete all-miss single-track batch; its result
satisfies the invariant. -/
theorem pipeline_result_invariant_witness :
    resultInvariant (pipelineResolve "https://notslider.nl" emptyPageOracle sampleTrack) :=
  pipeline_result_invariant "https://notslider.nl" (fun _ => emptyPageOracle) [sampleTrack] 1
    [pipelineResolve "https://notslider.nl" emptyPageOracle sampleTrack]
    (fun _ _ u hu => absurd hu (by simp [emptyPageOracle]))
    rfl
    (pipelineResolve "https://notslider.nl" emptyPageOracle sampleTrack)
    (List.mem_singleton.mpr rfl)
